import Mathlib

/-!
Verification of the ClaimEase job-orchestration core against its design
specification.

The embedding below shallowly models the two Python modules that implement
the core:

* `src/services/worker/main.py` — the Celery worker holding
  `process_patient_pipeline` (the Pipeline Executor), `call_service`
  (the Stage Adapter), `update_job_status` (job-store writes) and
  `consume_processing_queue` (the Queue Consumer);
* `src/services/api-gateway/main.py` — the FastAPI gateway holding
  `process_patient` (job creation).

The Redis hash `job:{job_id}` is modelled as a record of optional string
fields (`JobHash`); `hset` with a mapping merges the given fields into the
hash, creating it when absent, which is exactly what the record-update
operations below do.  Timestamps (`datetime.utcnow().isoformat()`) are
abstracted to opaque `Nat` clock values.  A run of
`process_patient_pipeline` is modelled as the list of observable events it
performs (`pipelineTrace`): each stage invocation, each
`update_job_status` call, and the failure `hset` of the `except` block;
`applyEv` replays an event against a job hash exactly as the corresponding
Redis write would.
-/

namespace ClaimEase

/-- Pipeline stage names, as keyed in the worker's `SERVICES` dict. -/
inductive Stage
  | document
  | ocr
  | nlp
  | form
  deriving DecidableEq, Repr

/-- The fixed stage order of `process_patient_pipeline`:
document, ocr, nlp, form. -/
def stageOrder : List Stage := [.document, .ocr, .nlp, .form]

/-- Outcome of the single POST that `call_service` makes to a stage
service.  `ok truthy` is a 2xx response whose parsed JSON body has the
given Python truthiness; `err msg` covers every exception path inside
`call_service` (timeout, connection failure, `raise_for_status` on a
non-2xx response), carrying the exception's human-readable message. -/
inductive StageResp
  | ok (truthy : Bool)
  | err (msg : String)
  deriving DecidableEq, Repr

/-- Model of `call_service` (worker/main.py lines 95-107): returns the
parsed JSON body on success and `None` on any exception — the exception's
message is logged and dropped, never returned to the caller. -/
def call_service (resp : StageResp) : Option Bool :=
  match resp with
  | .ok truthy => some truthy
  | .err _ => none

/-- Truthiness test the pipeline applies to each stage response
(`if not doc_response: raise ...`): a `None` return or a falsy JSON body
both count as failure. -/
def stageOk (env : Stage → StageResp) (st : Stage) : Bool :=
  match call_service (env st) with
  | some truthy => truthy
  | none => false

/-- The fixed message of the `Exception` the pipeline raises when a
stage's response is falsy (worker/main.py lines 41, 49, 57, 65). -/
def failMsg : Stage → String
  | .document => "Document analysis failed"
  | .ocr => "OCR processing failed"
  | .nlp => "NLP processing failed"
  | .form => "Form filling failed"

/-- Observable events of one `process_patient_pipeline` run:
`invokeStage` is a `call_service` call; `updateSP` is an
`update_job_status` call (an `hset` of status, progress and updated_at);
`failureUpdate` is the `except` block's `hset` of status=failed, error
and failed_at. -/
inductive Ev
  | invokeStage (st : Stage)
  | updateSP (status : String) (progress : Nat)
  | failureUpdate (err : String)
  deriving DecidableEq, Repr

/-- Event trace of `process_patient_pipeline` (worker/main.py lines
30-93) for a given environment of stage responses: write
processing/10, then for each stage in order invoke it, and either raise
(one failure update, ending the run) or write the stage's checkpoint;
after all four, write completed/100. -/
def pipelineTrace (env : Stage → StageResp) : List Ev :=
  .updateSP "processing" 10 ::
  .invokeStage .document ::
  (if stageOk env .document then
    .updateSP "processing" 25 ::
    .invokeStage .ocr ::
    (if stageOk env .ocr then
      .updateSP "processing" 50 ::
      .invokeStage .nlp ::
      (if stageOk env .nlp then
        .updateSP "processing" 75 ::
        .invokeStage .form ::
        (if stageOk env .form then
          [.updateSP "completed" 100]
        else
          [.failureUpdate (failMsg .form)])
      else
        [.failureUpdate (failMsg .nlp)])
    else
      [.failureUpdate (failMsg .ocr)])
  else
    [.failureUpdate (failMsg .document)])

/-- The Redis hash `job:{job_id}`, one optional field per hash key the
code ever writes.  Timestamps are abstract clock values. -/
structure JobHash where
  patient_name : Option String
  status : Option String
  progress : Option String
  created_at : Option Nat
  updated_at : Option Nat
  failed_at : Option Nat
  error : Option String
  deriving DecidableEq, Repr

/-- The absent hash: `hgetall` on a missing key returns `{}`. -/
def emptyHash : JobHash :=
  { patient_name := none, status := none, progress := none
    created_at := none, updated_at := none, failed_at := none
    error := none }

/-- Replay one pipeline event against a job hash.  `updateSP` is
`update_job_status`: `hset` of status, `str(progress)` and updated_at
(worker/main.py lines 109-118).  `failureUpdate` is the `except` block's
`hset` of status="failed", error and failed_at (lines 84-91); note it
does not touch progress.  A stage invocation writes nothing to the job
store. -/
def applyEv (now : Nat) (h : JobHash) : Ev → JobHash
  | .invokeStage _ => h
  | .updateSP s p =>
      { h with status := some s, progress := some (toString p)
               updated_at := some now }
  | .failureUpdate e =>
      { h with status := some "failed", error := some e
               failed_at := some now }

/-- Final job hash after one full `process_patient_pipeline` run
dispatched at clock `now` over starting hash `h`. -/
def runHash (env : Stage → StageResp) (now : Nat) (h : JobHash) : JobHash :=
  (pipelineTrace env).foldl (applyEv now) h

/-- Model of job creation in the gateway's `process_patient`
(api-gateway/main.py lines 68-100): an unconditional `hset` of
patient_name, status="pending", created_at and progress="0" — merged
into whatever hash already exists under the key (there is no existence
check). -/
def createJob (patient : String) (now : Nat) (existing : Option JobHash) :
    JobHash :=
  let base := existing.getD emptyHash
  { base with patient_name := some patient, status := some "pending"
              created_at := some now, progress := some "0" }

/-- Environment in which all four stage services respond with a truthy
2xx body. -/
def envAllOk : Stage → StageResp := fun _ => .ok true

/-- Environment in which the ocr service fails with message
"engine unavailable" and every other stage responds truthy 2xx. -/
def envOcrDown : Stage → StageResp
  | .ocr => .err "engine unavailable"
  | _ => .ok true

/-- Environment in which the document service fails and the rest
respond truthy 2xx. -/
def envDocDown : Stage → StageResp
  | .document => .err "document service down"
  | _ => .ok true

/-- Boolean conjunction: every stage responded successfully. -/
def allStagesOk (env : Stage → StageResp) : Bool :=
  stageOk env .document && stageOk env .ocr &&
  stageOk env .nlp && stageOk env .form

/-- The success-path event trace, spelled out. -/
def fullSuccessTrace : List Ev :=
  [.updateSP "processing" 10, .invokeStage .document,
   .updateSP "processing" 25, .invokeStage .ocr,
   .updateSP "processing" 50, .invokeStage .nlp,
   .updateSP "processing" 75, .invokeStage .form,
   .updateSP "completed" 100]

/-- C1 — For every dispatched run, the first event is the
processing/10 write (so it precedes every stage invocation); each
successful stage is followed by its checkpoint write (25, 50, 75); and
when all four stages succeed the trace is exactly the success-path
trace, whose final write is completed/100. -/
theorem c1_initial_write_checkpoints_and_completion
    (env : Stage → StageResp) :
    (pipelineTrace env).head? = some (.updateSP "processing" 10) ∧
    (stageOk env .document = true →
      (pipelineTrace env).take 4 =
        [.updateSP "processing" 10, .invokeStage .document,
         .updateSP "processing" 25, .invokeStage .ocr]) ∧
    (stageOk env .document = true → stageOk env .ocr = true →
      (pipelineTrace env).take 6 =
        [.updateSP "processing" 10, .invokeStage .document,
         .updateSP "processing" 25, .invokeStage .ocr,
         .updateSP "processing" 50, .invokeStage .nlp]) ∧
    (stageOk env .document = true → stageOk env .ocr = true →
      stageOk env .nlp = true →
      (pipelineTrace env).take 8 =
        [.updateSP "processing" 10, .invokeStage .document,
         .updateSP "processing" 25, .invokeStage .ocr,
         .updateSP "processing" 50, .invokeStage .nlp,
         .updateSP "processing" 75, .invokeStage .form]) ∧
    (allStagesOk env = true → pipelineTrace env = fullSuccessTrace) := by
  refine ⟨rfl, ?_, ?_, ?_, ?_⟩
  · intro hdoc
    simp [pipelineTrace, hdoc]
  · intro hdoc hocr
    simp [pipelineTrace, hdoc, hocr]
  · intro hdoc hocr hnlp
    simp [pipelineTrace, hdoc, hocr, hnlp]
  · intro hall
    have hdoc : stageOk env .document = true := by
      simp [allStagesOk] at hall; exact hall.1.1.1
    have hocr : stageOk env .ocr = true := by
      simp [allStagesOk] at hall; exact hall.1.1.2
    have hnlp : stageOk env .nlp = true := by
      simp [allStagesOk] at hall; exact hall.1.2
    have hform : stageOk env .form = true := by
      simp [allStagesOk] at hall; exact hall.2
    simp [pipelineTrace, fullSuccessTrace, hdoc, hocr, hnlp, hform]

/-- Witness for C1 at the all-success environment. -/
theorem c1_witness :
    pipelineTrace envAllOk = fullSuccessTrace :=
  (c1_initial_write_checkpoints_and_completion envAllOk).2.2.2.2 (by decide)

/-- The stage invocations of a run, in order, projected out of its
event trace. -/
def invocations (env : Stage → StageResp) : List Stage :=
  (pipelineTrace env).filterMap fun e =>
    match e with
    | .invokeStage st => some st
    | _ => none

/-- C4 — Within one run the stage invocations are exactly a prefix of
document, ocr, nlp, form ending at the first failing stage (or all four
when none fails), each stage is invoked at most once (no retries), and
nothing is invoked after the first failure. -/
theorem c4_sequential_invocations_stop_on_failure
    (env : Stage → StageResp) :
    (invocations env).Nodup ∧
    (stageOk env .document = false → invocations env = [.document]) ∧
    (stageOk env .document = true → stageOk env .ocr = false →
      invocations env = [.document, .ocr]) ∧
    (stageOk env .document = true → stageOk env .ocr = true →
      stageOk env .nlp = false →
      invocations env = [.document, .ocr, .nlp]) ∧
    (stageOk env .document = true → stageOk env .ocr = true →
      stageOk env .nlp = true →
      invocations env = stageOrder) := by
  by_cases hdoc : stageOk env .document
  · by_cases hocr : stageOk env .ocr
    · by_cases hnlp : stageOk env .nlp
      · by_cases hform : stageOk env .form
        all_goals
          simp [invocations, pipelineTrace, stageOrder, hdoc, hocr, hnlp]
        all_goals simp [hform]
      · simp [invocations, pipelineTrace, stageOrder, hdoc, hocr, hnlp]
    · simp [invocations, pipelineTrace, hdoc, hocr]
  · simp [invocations, pipelineTrace, hdoc]

/-- Witness for C4 at the all-success environment. -/
theorem c4_witness : invocations envAllOk = stageOrder :=
  (c4_sequential_invocations_stop_on_failure envAllOk).2.2.2.2
    (by decide) (by decide) (by decide)

/-- The progress values a run writes, in order, projected out of its
event trace (the failure `hset` writes no progress). -/
def progressWrites (env : Stage → StageResp) : List Nat :=
  (pipelineTrace env).filterMap fun e =>
    match e with
    | .updateSP _ p => some p
    | _ => none

/-- C7 — The progress values written over one run are non-decreasing,
and along the all-success path they are exactly 10, 25, 50, 75, 100. -/
theorem c7_monotonic_progress (env : Stage → StageResp) :
    List.Chain' (· ≤ ·) (progressWrites env) ∧
    (allStagesOk env = true → progressWrites env = [10, 25, 50, 75, 100]) := by
  by_cases hdoc : stageOk env .document
  · by_cases hocr : stageOk env .ocr
    · by_cases hnlp : stageOk env .nlp
      · by_cases hform : stageOk env .form
        all_goals
          simp [progressWrites, pipelineTrace, allStagesOk,
            hdoc, hocr, hnlp, hform]
      · simp [progressWrites, pipelineTrace, allStagesOk, hdoc, hocr, hnlp]
    · simp [progressWrites, pipelineTrace, allStagesOk, hdoc, hocr]
  · simp [progressWrites, pipelineTrace, allStagesOk, hdoc]

/-- Witness for C7 at the all-success environment. -/
theorem c7_witness : progressWrites envAllOk = [10, 25, 50, 75, 100] :=
  (c7_monotonic_progress envAllOk).2 (by decide)

/-- C2 counterexample — A run whose ocr stage fails with message
"engine unavailable" records the pipeline's generic message
"OCR processing failed", not the stage's own message: `call_service`
swallows the exception and returns `None`, and the pipeline raises its
own fixed `Exception`. -/
theorem c2_counterexample :
    (runHash envOcrDown 1 (createJob "Jane Doe" 0 none)).error =
      some "OCR processing failed" ∧
    (runHash envOcrDown 1 (createJob "Jane Doe" 0 none)).error ≠
      some "engine unavailable" := by
  constructor
  · rfl
  · decide

/-- C2 amended — When a stage fails, the error recorded on the job is
the pipeline's fixed per-stage message ("Document analysis failed",
"OCR processing failed", "NLP processing failed", "Form filling
failed") naming the position that failed; the failing stage's own
message is logged inside `call_service` and dropped. -/
theorem c2_error_is_generic_stage_message
    (env : Stage → StageResp) (now : Nat) (h : JobHash) :
    (stageOk env .document = false →
      (runHash env now h).error = some (failMsg .document)) ∧
    (stageOk env .document = true → stageOk env .ocr = false →
      (runHash env now h).error = some (failMsg .ocr)) ∧
    (stageOk env .document = true → stageOk env .ocr = true →
      stageOk env .nlp = false →
      (runHash env now h).error = some (failMsg .nlp)) ∧
    (stageOk env .document = true → stageOk env .ocr = true →
      stageOk env .nlp = true → stageOk env .form = false →
      (runHash env now h).error = some (failMsg .form)) := by
  refine ⟨?_, ?_, ?_, ?_⟩
  · intro hdoc
    simp [runHash, pipelineTrace, hdoc, applyEv]
  · intro hdoc hocr
    simp [runHash, pipelineTrace, hdoc, hocr, applyEv]
  · intro hdoc hocr hnlp
    simp [runHash, pipelineTrace, hdoc, hocr, hnlp, applyEv]
  · intro hdoc hocr hnlp hform
    simp [runHash, pipelineTrace, hdoc, hocr, hnlp, hform, applyEv]

/-- Witness for the amended C2: the ocr-failure environment yields the
generic ocr message. -/
theorem c2_witness :
    (runHash envOcrDown 1 (createJob "Jane Doe" 0 none)).error =
      some (failMsg .ocr) :=
  (c2_error_is_generic_stage_message envOcrDown 1
      (createJob "Jane Doe" 0 none)).2.1 (by decide) (by decide)

/-- C3 counterexample — A second dispatch of a completed job rewrites
its terminal state: after an all-success run the record is completed,
and a further run dispatched on the same record (here with the document
stage failing) moves status to failed.  `update_job_status` and the
failure `hset` write unconditionally; nothing guards terminal states. -/
theorem c3_counterexample :
    (runHash envAllOk 1 (createJob "Jane Doe" 0 none)).status =
      some "completed" ∧
    (runHash envDocDown 2
        (runHash envAllOk 1 (createJob "Jane Doe" 0 none))).status =
      some "failed" := by
  constructor <;> rfl

/-- Event that writes a terminal status: a completed or failed
`update_job_status`, or the failure `hset`. -/
def isTerminalEv : Ev → Bool
  | .updateSP s _ => s == "completed" || s == "failed"
  | .failureUpdate _ => true
  | .invokeStage _ => false

/-- C3 amended — Terminal stability holds within a single run: every
run's trace contains exactly one terminal-status write and it is the
last event of the trace, so no write of that run follows it; the
property does not survive a second dispatch of the same job_id, which
overwrites the terminal record (see the counterexample). -/
theorem c3_terminal_write_is_last (env : Stage → StageResp) :
    (pipelineTrace env).countP (fun e => isTerminalEv e) = 1 ∧
    (pipelineTrace env).getLast?.any isTerminalEv = true := by
  by_cases hdoc : stageOk env .document
  · by_cases hocr : stageOk env .ocr
    · by_cases hnlp : stageOk env .nlp
      · by_cases hform : stageOk env .form
        all_goals
          simp [pipelineTrace, isTerminalEv, hdoc, hocr, hnlp, hform,
            List.countP_cons]
      · simp [pipelineTrace, isTerminalEv, hdoc, hocr, hnlp,
          List.countP_cons]
    · simp [pipelineTrace, isTerminalEv, hdoc, hocr, List.countP_cons]
  · simp [pipelineTrace, isTerminalEv, hdoc, List.countP_cons]

/-- The record's status reads "failed". -/
def isFailedStatus (h : JobHash) : Bool :=
  match h.status with
  | some s => s == "failed"
  | none => false

/-- The record carries a non-empty error field. -/
def errorNonempty (h : JobHash) : Bool :=
  match h.error with
  | some e => e != ""
  | none => false

/-- Status/error coupling for one record: status is "failed" exactly
when a non-empty error is present. -/
def statusErrorCoupled (h : JobHash) : Bool :=
  isFailedStatus h == errorNonempty h

/-- All job hashes a job passes through during its lifecycle: the
freshly created record followed by the state after each event of one
pipeline run. -/
def lifecycleHashes (env : Stage → StageResp) (patient : String)
    (t0 t1 : Nat) : List JobHash :=
  List.scanl (applyEv t1) (createJob patient t0 none) (pipelineTrace env)

/-- C5 — Creation writes no error field; every record the job passes
through (created, processing at each checkpoint, completed or failed)
satisfies status = failed iff error present and non-empty; and a
completed run's final record has no error. -/
theorem c5_status_error_coupling (env : Stage → StageResp)
    (patient : String) (t0 t1 : Nat) :
    (createJob patient t0 none).error = none ∧
    (lifecycleHashes env patient t0 t1).all statusErrorCoupled = true ∧
    (allStagesOk env = true →
      (runHash env t1 (createJob patient t0 none)).error = none) := by
  refine ⟨rfl, ?_, ?_⟩
  · by_cases hdoc : stageOk env .document
    · by_cases hocr : stageOk env .ocr
      · by_cases hnlp : stageOk env .nlp
        · by_cases hform : stageOk env .form
          all_goals
            simp [lifecycleHashes, pipelineTrace, createJob, emptyHash,
              applyEv, statusErrorCoupled, isFailedStatus, errorNonempty,
              failMsg, hdoc, hocr, hnlp, hform]
        · simp [lifecycleHashes, pipelineTrace, createJob, emptyHash,
            applyEv, statusErrorCoupled, isFailedStatus, errorNonempty,
            failMsg, hdoc, hocr, hnlp]
      · simp [lifecycleHashes, pipelineTrace, createJob, emptyHash,
          applyEv, statusErrorCoupled, isFailedStatus, errorNonempty,
          failMsg, hdoc, hocr]
    · simp [lifecycleHashes, pipelineTrace, createJob, emptyHash,
        applyEv, statusErrorCoupled, isFailedStatus, errorNonempty,
        failMsg, hdoc]
  · intro hall
    have hdoc : stageOk env .document = true := by
      simp [allStagesOk] at hall; exact hall.1.1.1
    have hocr : stageOk env .ocr = true := by
      simp [allStagesOk] at hall; exact hall.1.1.2
    have hnlp : stageOk env .nlp = true := by
      simp [allStagesOk] at hall; exact hall.1.2
    have hform : stageOk env .form = true := by
      simp [allStagesOk] at hall; exact hall.2
    simp [runHash, pipelineTrace, createJob, emptyHash, applyEv,
      hdoc, hocr, hnlp, hform]

/-- Witness for C5 at the all-success environment. -/
theorem c5_witness :
    (lifecycleHashes envAllOk "Jane Doe" 0 1).all statusErrorCoupled
      = true ∧
    (runHash envAllOk 1 (createJob "Jane Doe" 0 none)).error = none :=
  ⟨(c5_status_error_coupling envAllOk "Jane Doe" 0 1).2.1,
   (c5_status_error_coupling envAllOk "Jane Doe" 0 1).2.2 (by decide)⟩

/-- C6 — The failure `hset` mutates only status, error and failed_at:
progress, patient_name, created_at and updated_at are untouched.  In
particular a run whose document stage succeeds and whose ocr stage
fails leaves the final record failed with progress frozen at "25". -/
theorem c6_failure_update_frames_progress :
    (∀ (now : Nat) (h : JobHash) (e : String),
      (applyEv now h (.failureUpdate e)).progress = h.progress ∧
      (applyEv now h (.failureUpdate e)).patient_name = h.patient_name ∧
      (applyEv now h (.failureUpdate e)).created_at = h.created_at ∧
      (applyEv now h (.failureUpdate e)).updated_at = h.updated_at ∧
      (applyEv now h (.failureUpdate e)).status = some "failed" ∧
      (applyEv now h (.failureUpdate e)).error = some e ∧
      (applyEv now h (.failureUpdate e)).failed_at = some now) ∧
    (runHash envOcrDown 1 (createJob "Jane Doe" 0 none)).progress =
      some "25" ∧
    (runHash envOcrDown 1 (createJob "Jane Doe" 0 none)).status =
      some "failed" := by
  refine ⟨?_, rfl, rfl⟩
  intro now h e
  exact ⟨rfl, rfl, rfl, rfl, rfl, rfl, rfl⟩

/-- A terminal record an earlier run could have left behind, used to
probe creation against an already-present job_id. -/
def preexistingCompleted : JobHash :=
  { patient_name := some "Jane Doe", status := some "completed"
    progress := some "100", created_at := some 0, updated_at := some 1
    failed_at := none, error := none }

/-- C8 counterexample — Creation does not fail with AlreadyExists when
a record for the job_id is already present, and it does not leave the
existing record unchanged: `process_patient` issues an unconditional
`hset`, which here rewrites a completed record's status back to
pending. -/
theorem c8_counterexample :
    (createJob "Other Patient" 5 (some preexistingCompleted)).status =
      some "pending" ∧
    createJob "Other Patient" 5 (some preexistingCompleted) ≠
      preexistingCompleted := by
  constructor
  · rfl
  · decide

/-- C8 amended — Creation writes status=pending, progress="0",
created_at=now and the patient name; when a record for the job_id is
already present it does not fail: those four fields are overwritten in
place and every other field of the existing record (updated_at,
failed_at, error) persists. -/
theorem c8_create_merges_without_alreadyexists
    (patient : String) (now : Nat) (existing : Option JobHash) :
    (createJob patient now existing).status = some "pending" ∧
    (createJob patient now existing).progress = some "0" ∧
    (createJob patient now existing).created_at = some now ∧
    (createJob patient now existing).patient_name = some patient ∧
    (createJob patient now existing).updated_at =
      (existing.getD emptyHash).updated_at ∧
    (createJob patient now existing).failed_at =
      (existing.getD emptyHash).failed_at ∧
    (createJob patient now existing).error =
      (existing.getD emptyHash).error :=
  ⟨rfl, rfl, rfl, rfl, rfl, rfl, rfl⟩

/-- FIFO push of the gateway: `lpush` prepends the job_id to the
processing_queue list. -/
def lpushQueue (q : List String) (jid : String) : List String :=
  jid :: q

/-- Blocking pop of the consumer: `brpop` removes and returns the
rightmost element of the list; `none` models a timeout on an empty
queue. -/
def brpopQueue (q : List String) : Option (String × List String) :=
  match q.getLast? with
  | none => none
  | some jid => some (jid, q.dropLast)

/-- What one iteration of `consume_processing_queue`'s body does after
the pop: dispatch a pipeline run, drop the token silently, crash, or
nothing (pop timeout). -/
inductive StepOutcome
  | idle
  | skipped (jid : String)
  | dispatched (jid : String) (patient : String)
  | keyErrorCrash (jid : String)
  deriving DecidableEq, Repr

/-- One iteration of the Queue Consumer loop (worker/main.py lines
121-143): `brpop`; on a token, `hgetall` the job hash; if the hash is
empty (`if job_data:` false) the token is simply dropped; otherwise
read `job_data[b'patient_name']` — a KeyError if the field is absent —
and dispatch `process_patient_pipeline.delay`.  The iteration itself
never writes the job store, so the store is returned unchanged. -/
def consumeStep (store : String → Option JobHash) (q : List String) :
    (String → Option JobHash) × List String × StepOutcome :=
  match brpopQueue q with
  | none => (store, q, .idle)
  | some (jid, q') =>
    match store jid with
    | none => (store, q', .skipped jid)
    | some h =>
      match h.patient_name with
      | some patient => (store, q', .dispatched jid patient)
      | none => (store, q', .keyErrorCrash jid)

/-- C9 — Dequeuing a token whose job hash does not exist dispatches
nothing and discards the token silently: the token is consumed from the
queue, the job store is untouched, and no error is recorded anywhere. -/
theorem c9_unknown_token_dropped_silently
    (store : String → Option JobHash) (q : List String) (jid : String)
    (hmiss : store jid = none) :
    consumeStep store (q ++ [jid]) = (store, q, .skipped jid) := by
  simp [consumeStep, brpopQueue, hmiss]

/-- Witness for C9 on an empty store and a one-token queue. -/
theorem c9_witness :
    consumeStep (fun _ => none) ([] ++ ["j1"]) =
      (fun _ => none, [], .skipped "j1") :=
  c9_unknown_token_dropped_silently (fun _ => none) [] "j1" rfl

/-- Names bound at module level in `src/services/worker/main.py`: its
seven import bindings (`from celery import Celery`, `import httpx`,
`import asyncio`, `import json`, `import redis as sync_redis`,
`import logging`, `from datetime import datetime`) and its module-level
assignments and function definitions.  `time` is not among them: the
`time` module is never imported. -/
def workerModuleBindings : List String :=
  ["Celery", "httpx", "asyncio", "json", "sync_redis", "logging",
   "datetime", "logger", "celery_app", "redis_client", "SERVICES",
   "process_patient_pipeline", "call_service", "update_job_status",
   "consume_processing_queue", "setup_periodic_tasks"]

/-- Result of executing the consumer's `except` handler. -/
inductive HandlerResult
  | sleptAndContinued (seconds : Nat)
  | raisedNameError (missing : String)
  deriving DecidableEq, Repr

/-- Execution of the `except` handler at worker/main.py lines 141-143:
after logging it evaluates `time.sleep(5)`, which first resolves the
name `time` against the module's bindings (it is no local and no
builtin); an unbound name raises NameError, which propagates out of the
handler. -/
def exceptHandlerRun (bindings : List String) : HandlerResult :=
  if "time" ∈ bindings then .sleptAndContinued 5
  else .raisedNameError "time"

/-- Whether the `while True` loop survives an exception in its body: it
does exactly when the `except` handler itself returns normally instead
of raising. -/
def loopSurvivesException : Bool :=
  match exceptHandlerRun workerModuleBindings with
  | .sleptAndContinued _ => true
  | .raisedNameError _ => false

/-- C10 — The consumer loop's exception handler is unsound: resolving
`time` against the worker module's bindings fails, so the handler
raises NameError instead of sleeping five seconds, and the loop
terminates rather than retrying. -/
theorem c10_handler_raises_nameerror :
    exceptHandlerRun workerModuleBindings = .raisedNameError "time" ∧
    loopSurvivesException = false := by
  constructor <;> rfl

end ClaimEase
